import Mathlib

/-!
Verification of the meshviewer2 ingestion/state-reconciliation pipeline.

The definitions below are shallow embeddings of the Python sources:
  backend/database.py, backend/main.py, backend/meshtastic_connector.py,
  backend/models.py and data_management.py.
Timestamps are explicit Int parameters standing for the wall-clock values
the code obtains from datetime.now() / time.time(); floats are modelled
as rationals; nullable fields are Option; SQL tables are lists of rows.
-/

namespace MeshViewer2

/-- models.py SignalQuality enum. -/
inductive SignalQuality where
  | EXCELLENT
  | GOOD
  | WEAK
  | POOR
deriving DecidableEq, Repr

/-- Python truthiness of an Optional[int]: None and 0 are falsy. -/
def pyFalsyInt : Option Int → Bool
  | none => true
  | some n => n == 0

/-- database.py Database.calculate_signal_quality.  The guard is the Python
check `if not rssi`, which is true both for a missing RSSI and for an RSSI
equal to 0.  main.py handle_node_info and handle_telemetry inline the same
computation with the same `if rssi:` guard. -/
def calculate_signal_quality (rssi : Option Int) : Option SignalQuality :=
  if pyFalsyInt rssi then none
  else match rssi with
    | none => none
    | some r =>
      if r > -75 then some .EXCELLENT
      else if r > -85 then some .GOOD
      else if r > -95 then some .WEAK
      else some .POOR

/-- The unguarded RSSI step function, as inlined by main.py handle_telemetry
for a known node once `data.get("rssi") is not None` (and as written in
spec section 4.1). -/
def rssi_step_quality (r : Int) : SignalQuality :=
  if r > -75 then .EXCELLENT
  else if r > -85 then .GOOD
  else if r > -95 then .WEAK
  else .POOR

/-- meshtastic_connector.py on_receive: hop count is hopStart - hopLimit when
hopStart > 0, and None (unknown) otherwise. -/
def hop_count_of (hopStart hopLimit : Int) : Option Int :=
  if hopStart > 0 then some (hopStart - hopLimit) else none

/-- meshtastic_connector.py update_network_link:
`"is_direct": packet_data.get("hop_count") == 1`. -/
def link_is_direct (hc : Option Int) : Bool :=
  hc == some 1

/-- meshtastic_connector.py on_receive:
`to_id_raw = packet.get("toId") or packet.get("to") or "^all"` --
a missing or empty destination falls back to the broadcast marker. -/
def resolve_to_id (toId : Option String) : String :=
  match toId with
  | none => "^all"
  | some s => if s = "" then "^all" else s

/-- meshtastic_connector.py on_receive: the protocol broadcast markers
normalize to the canonical "broadcast" identifier. -/
def normalize_to_id (s : String) : String :=
  if s = "^all" ∨ s = "4294967295" then "broadcast" else s

/-- meshtastic_connector.py update_network_link destination expression:
`to_id if to_id not in ["4294967295", "^all"] else str(self.local_node_id)
if self.local_node_id else "broadcast"`. -/
def link_to_id (to_id : String) (local_node_id : Option String) : String :=
  if to_id ≠ "4294967295" ∧ to_id ≠ "^all" then to_id
  else match local_node_id with
    | none => "broadcast"
    | some l => if l = "" then "broadcast" else l

/-- The destination identifier a network link receives on the on_receive
path: the raw toId is resolved and normalized (on_receive) before
update_network_link computes the link destination. -/
def on_receive_link_dest (toId : Option String) (local_node_id : Option String) : String :=
  link_to_id (normalize_to_id (resolve_to_id toId)) local_node_id

/-- data_management.py MeshtasticDB.cleanup_old_data, per table.  A table is
a list of row timestamps.  The code counts the rows older than the cutoff,
deletes exactly those rows, and reports
`count_before - (number of rows remaining in the table)`. -/
def cleanup_table (rows : List Int) (cutoff : Int) : Int × List Int :=
  let count_before : Int := ((rows.filter (fun ts => decide (ts < cutoff))).length : Int)
  let remaining := rows.filter (fun ts => !(decide (ts < cutoff)))
  (count_before - (remaining.length : Int), remaining)

/-- data_management.py node_links row: rolling statistics for one
(session, from, to) link. -/
structure NodeLinkRow where
  session_id : Nat
  from_node : Int
  to_node : Int
  packet_count : Nat
  success_rate : Rat
  avg_rssi : Rat
  avg_snr : Rat
  avg_hop_count : Rat
  is_direct : Bool
  last_seen : Int
  first_seen : Int
  last_updated : Int
deriving DecidableEq, Repr

/-- The WHERE clause key of data_management.py _update_node_link:
session_id, from_node and to_node all match. -/
def link_key_match (session_id : Nat) (from_node to_node : Int) (l : NodeLinkRow) : Bool :=
  l.session_id == session_id && l.from_node == from_node && l.to_node == to_node

/-- data_management.py MeshtasticDB._update_node_link: if a row for the key
exists, increment packet_count and recompute the three rolling means with
the incremental identity; otherwise insert a fresh row with packet_count 1
whose means are the observed values. -/
def update_node_link (links : List NodeLinkRow) (from_node to_node : Int)
    (rssi : Int) (snr : Rat) (hop_count : Int) (session_id : Nat) (now : Int) :
    List NodeLinkRow :=
  match links.find? (link_key_match session_id from_node to_node) with
  | some existing =>
    let count : Nat := existing.packet_count + 1
    let new_avg_rssi : Rat :=
      (existing.avg_rssi * (existing.packet_count : Rat) + (rssi : Rat)) / (count : Rat)
    let new_avg_snr : Rat :=
      (existing.avg_snr * (existing.packet_count : Rat) + snr) / (count : Rat)
    let new_avg_hops : Rat :=
      (existing.avg_hop_count * (existing.packet_count : Rat) + (hop_count : Rat)) / (count : Rat)
    links.map (fun l =>
      if link_key_match session_id from_node to_node l then
        { l with
          packet_count := count, avg_rssi := new_avg_rssi, avg_snr := new_avg_snr,
          avg_hop_count := new_avg_hops, success_rate := 100,
          is_direct := decide (hop_count ≤ 1), last_seen := now, last_updated := now }
      else l)
  | none =>
    links ++ [{ session_id := session_id, from_node := from_node, to_node := to_node,
                packet_count := 1, success_rate := 100, avg_rssi := (rssi : Rat),
                avg_snr := snr, avg_hop_count := (hop_count : Rat),
                is_direct := decide (hop_count ≤ 1),
                last_seen := now, first_seen := now, last_updated := now }]

/-- The row created by the first update of the C5 two-update scenario
(session 7, link 1 to 2, rssi -60). -/
def c5_first_row : NodeLinkRow :=
  { session_id := 7, from_node := 1, to_node := 2, packet_count := 1,
    success_rate := 100, avg_rssi := -60, avg_snr := 0, avg_hop_count := 0,
    is_direct := true, last_seen := 100, first_seen := 100, last_updated := 100 }

/-- database.py sessions table row. -/
structure SessionRow where
  id : Nat
  started_at : Int
  ended_at : Option Int
  is_active : Bool
  node_count : Nat
  message_count : Nat
deriving DecidableEq, Repr

/-- models.py NodeInfo (also the shape of a nodes table row minus
session_id). -/
structure NodeRow where
  id : String
  short_name : String
  long_name : Option String
  hardware_model : Option String
  role : String
  battery_level : Option Int
  voltage : Option Rat
  rssi : Option Int
  snr : Option Rat
  hop_count : Int
  latitude : Option Rat
  longitude : Option Rat
  altitude : Option Rat
  last_heard : Int
  is_online : Bool
  signal_quality : Option SignalQuality
deriving DecidableEq, Repr

/-- database.py nodes table row: a NodeInfo stored under a session. -/
structure NodeStored where
  session_id : Nat
  node : NodeRow
deriving DecidableEq, Repr

/-- database.py nodes_history table row. -/
structure HistoryRow where
  node_id : String
  session_id : Nat
  short_name : String
  long_name : Option String
  hardware_model : Option String
  role : String
  battery_level : Option Int
  voltage : Option Rat
  rssi : Option Int
  snr : Option Rat
  hop_count : Int
  latitude : Option Rat
  longitude : Option Rat
  altitude : Option Rat
  timestamp : Int
deriving DecidableEq, Repr

/-- models.py MeshPacket / database.py mesh_packets row (without the
session id for the input model). -/
structure MeshPacketIn where
  from_id : String
  to_id : String
  packet_type : String
  payload : Option String
  rssi : Option Int
  snr : Option Rat
  hop_count : Int
  channel : Int
  timestamp : Int
deriving DecidableEq, Repr

/-- database.py mesh_packets table row. -/
structure PacketRow where
  session_id : Nat
  packet : MeshPacketIn
deriving DecidableEq, Repr

/-- models.py TextMessage. -/
structure TextMessageIn where
  from_id : String
  from_name : String
  to_id : String
  to_name : String
  message : String
  rssi : Option Int
  snr : Option Rat
  hop_count : Int
  timestamp : Int
deriving DecidableEq, Repr

/-- database.py text_messages table row. -/
structure MessageRow where
  session_id : Nat
  msg : TextMessageIn
deriving DecidableEq, Repr

/-- models.py NetworkLink. -/
structure NetworkLinkIn where
  from_id : String
  to_id : String
  rssi : Option Int
  snr : Option Rat
  success_rate : Rat
  last_seen : Int
  is_direct : Bool
deriving DecidableEq, Repr

/-- database.py network_links table row. -/
structure LinkRow where
  session_id : Nat
  link : NetworkLinkIn
deriving DecidableEq, Repr

/-- The state of database.py Database: the SQLite tables plus the
current_session_id attribute; nextSessionId models the sessions table
AUTOINCREMENT counter. -/
structure DBState where
  sessions : List SessionRow
  nextSessionId : Nat
  nodes : List NodeStored
  nodes_history : List HistoryRow
  mesh_packets : List PacketRow
  text_messages : List MessageRow
  network_links : List LinkRow
  currentSessionId : Option Nat
deriving DecidableEq, Repr

/-- Python truthiness of the Optional[int] current_session_id: None and 0
are falsy (`if not self.current_session_id`). -/
def pyFalsyNat : Option Nat → Bool
  | none => true
  | some n => n == 0

/-- database.py Database.start_session: deactivate every active session and
stamp its end time, then insert a fresh active session and track its id. -/
def start_session (st : DBState) (now : Int) : DBState :=
  let deactivated := st.sessions.map (fun s =>
    if s.is_active then { s with is_active := false, ended_at := some now } else s)
  let sid := st.nextSessionId
  { st with
    sessions := deactivated ++
      [{ id := sid, started_at := now, ended_at := none, is_active := true,
         node_count := 0, message_count := 0 }],
    nextSessionId := sid + 1,
    currentSessionId := some sid }

/-- The `if not self.current_session_id: await self.start_session()` prelude
shared by every write operation of database.py. -/
def ensure_session (st : DBState) (now : Int) : DBState :=
  if pyFalsyNat st.currentSessionId then start_session st now else st

/-- The session id the write operations use after ensure_session. -/
def current_sid (st : DBState) : Nat :=
  st.currentSessionId.getD 0

/-- The nodes_history row appended by upsert_node (all NodeInfo fields
except is_online and signal_quality; the timestamp is the node last_heard
value). -/
def history_of (sid : Nat) (n : NodeRow) : HistoryRow :=
  { node_id := n.id, session_id := sid, short_name := n.short_name,
    long_name := n.long_name, hardware_model := n.hardware_model,
    role := n.role, battery_level := n.battery_level, voltage := n.voltage,
    rssi := n.rssi, snr := n.snr, hop_count := n.hop_count,
    latitude := n.latitude, longitude := n.longitude, altitude := n.altitude,
    timestamp := n.last_heard }

/-- database.py Database.upsert_node: start a session if none is tracked,
recompute signal_quality from the RSSI of this update, INSERT OR REPLACE the
nodes row (the table primary key is the node id alone, so the previous row
for the id is replaced wholesale), and append a nodes_history row. -/
def upsert_node (st : DBState) (node : NodeRow) (now : Int) : DBState :=
  let st := ensure_session st now
  let sid := current_sid st
  let node := { node with signal_quality := calculate_signal_quality node.rssi }
  { st with
    nodes := st.nodes.filter (fun r => !(r.node.id == node.id)) ++
      [{ session_id := sid, node := node }],
    nodes_history := st.nodes_history ++ [history_of sid node] }

/-- database.py Database.get_active_nodes: empty when no session is tracked,
otherwise the session nodes heard strictly after now - since_seconds.  The
pair carries the (unchanged) state to make the absence of side effects
explicit. -/
def get_active_nodes (st : DBState) (now : Int) (since_seconds : Int) :
    List NodeRow × DBState :=
  if pyFalsyNat st.currentSessionId then ([], st)
  else
    let cutoff := now - since_seconds
    ((st.nodes.filter (fun r =>
        r.session_id == current_sid st && decide (cutoff < r.node.last_heard))).map
      (fun r => r.node), st)

/-- database.py Database.save_packet: start a session if none is tracked,
then append the packet row. -/
def save_packet (st : DBState) (p : MeshPacketIn) (now : Int) : DBState :=
  let st := ensure_session st now
  { st with mesh_packets := st.mesh_packets ++ [{ session_id := current_sid st, packet := p }] }

/-- database.py Database.save_message: start a session if none is tracked,
append the message row and increment the session message counter. -/
def save_message (st : DBState) (m : TextMessageIn) (now : Int) : DBState :=
  let st := ensure_session st now
  let sid := current_sid st
  { st with
    text_messages := st.text_messages ++ [{ session_id := sid, msg := m }],
    sessions := st.sessions.map (fun s =>
      if s.id == sid then { s with message_count := s.message_count + 1 } else s) }

/-- database.py Database.update_network_link: start a session if none is
tracked, then INSERT OR REPLACE on the UNIQUE(session_id, from_id, to_id)
key. -/
def update_network_link (st : DBState) (link : NetworkLinkIn) (now : Int) : DBState :=
  let st := ensure_session st now
  let sid := current_sid st
  { st with
    network_links := st.network_links.filter (fun r =>
        !(r.session_id == sid && r.link.from_id == link.from_id &&
          r.link.to_id == link.to_id)) ++
      [{ session_id := sid, link := link }] }

/-- database.py Database.get_network_topology: empty when no session is
tracked, otherwise the links of the tracked session. -/
def get_network_topology (st : DBState) : List NetworkLinkIn × DBState :=
  if pyFalsyNat st.currentSessionId then ([], st)
  else
    ((st.network_links.filter (fun r => r.session_id == current_sid st)).map
      (fun r => r.link), st)

/-- Insertion into a list kept in descending timestamp order (the ORDER BY
timestamp DESC of get_recent_messages). -/
def insert_ts_desc (m : MessageRow) : List MessageRow → List MessageRow
  | [] => [m]
  | x :: xs =>
    if x.msg.timestamp < m.msg.timestamp then m :: x :: xs
    else x :: insert_ts_desc m xs

/-- database.py Database.get_recent_messages: empty when no session is
tracked, otherwise the session messages ordered by timestamp descending,
limited, and finally reversed into chronological order. -/
def get_recent_messages (st : DBState) (limit : Nat) :
    List TextMessageIn × DBState :=
  if pyFalsyNat st.currentSessionId then ([], st)
  else
    let rows := st.text_messages.filter (fun r => r.session_id == current_sid st)
    let sorted := rows.foldr insert_ts_desc []
    (((sorted.take limit).map (fun r => r.msg)).reverse, st)

/-- Lookup of the stored nodes row for a node id. -/
def lookup_node (st : DBState) (id : String) : Option NodeStored :=
  st.nodes.find? (fun r => r.node.id == id)

/-- C1 counterexample inputs: two partial updates of node "A" with disjoint
non-null optional fields.  The first carries a long name and no battery
level; the second carries a battery level and no long name. -/
def c1_first_update : NodeRow :=
  { id := "A", short_name := "A1", long_name := some "Alpha",
    hardware_model := none, role := "CLIENT", battery_level := none,
    voltage := none, rssi := none, snr := none, hop_count := 0,
    latitude := none, longitude := none, altitude := none,
    last_heard := 10, is_online := true, signal_quality := none }

/-- The second C1 update: same id, battery level 80, long name omitted
(null). -/
def c1_second_update : NodeRow :=
  { id := "A", short_name := "A1", long_name := none,
    hardware_model := none, role := "CLIENT", battery_level := some 80,
    voltage := none, rssi := none, snr := none, hop_count := 0,
    latitude := none, longitude := none, altitude := none,
    last_heard := 20, is_online := true, signal_quality := none }

/-- The empty database state (fresh Database with no tables populated and
no tracked session). -/
def empty_db : DBState :=
  { sessions := [], nextSessionId := 1, nodes := [], nodes_history := [],
    mesh_packets := [], text_messages := [], network_links := [],
    currentSessionId := none }

/-- The node sub-dictionary of a raw node_info event (main.py reads it as
data["node"]); every field may be missing. -/
structure RawNodeData where
  id : Option String := none
  short_name : Option String := none
  long_name : Option String := none
  hardware_model : Option String := none
  role : Option String := none
  battery_level : Option Int := none
  voltage : Option Rat := none
deriving DecidableEq, Repr

/-- A raw event dictionary as received by main.py process_meshtastic_data.
typ models data["type"]; device_battery and device_voltage model the
device_metrics sub-dictionary read by handle_telemetry; every field may be
missing. -/
structure RawEvent where
  typ : Option String := none
  node : Option RawNodeData := none
  node_id : Option String := none
  from_id : Option String := none
  from_name : Option String := none
  to_id : Option String := none
  to_name : Option String := none
  message : Option String := none
  packet_type : Option String := none
  payload : Option String := none
  device_battery : Option Int := none
  device_voltage : Option Rat := none
  timestamp : Option Int := none
  rssi : Option Int := none
  snr : Option Rat := none
  hop_count : Option Int := none
  channel : Option Int := none
  is_direct : Option Bool := none
  latitude : Option Rat := none
  longitude : Option Rat := none
  altitude : Option Rat := none
deriving DecidableEq, Repr

/-- main.py AppState live view: live_nodes and network_links are dicts
(association lists here), live_messages is the bounded ring, db the
write-through store; notifications records the WebSocket broadcast issued
after each successfully handled event. -/
structure LiveState where
  live_nodes : List (String × NodeRow)
  live_messages : List TextMessageIn
  network_links : List (String × NetworkLinkIn)
  db : DBState
  notifications : List String
deriving DecidableEq, Repr

/-- A Python dictionary subscript data["key"]: a missing key raises
KeyError.  Because the handlers mutate shared live state in place, an
exception must carry the state as it stands at the moment of the raise
(mutations already applied stay applied), so errors are (message, state)
pairs. -/
def subscript {α : Type} (st : LiveState) (o : Option α) :
    Except (String × LiveState) α :=
  match o with
  | none => Except.error ("KeyError", st)
  | some v => Except.ok v

/-- Python dict assignment d[k] = v on an association list. -/
def set_assoc {α β : Type} [BEq α] (m : List (α × β)) (k : α) (v : β) :
    List (α × β) :=
  m.filter (fun kv => !(kv.1 == k)) ++ [(k, v)]

/-- Python dict lookup d.get(k) on an association list. -/
def lookup_assoc {α β : Type} [BEq α] (m : List (α × β)) (k : α) : Option β :=
  (m.find? (fun kv => kv.1 == k)).map (fun kv => kv.2)

/-- main.py handle_node_info: requires data["node"], node["id"] and
data["timestamp"]; the other fields default (short name to a derived
placeholder, role to CLIENT, hop count to 0); the inline RSSI bucketing
uses the same falsy `if rssi:` guard as calculate_signal_quality; the node
is stored in the live dict and written through to the database. -/
def handle_node_info (st : LiveState) (ev : RawEvent) :
    Except (String × LiveState) LiveState := do
  let nd ← subscript st ev.node
  let nid ← subscript st nd.id
  let ts ← subscript st ev.timestamp
  let node : NodeRow :=
    { id := nid,
      short_name := nd.short_name.getD ("Node-" ++ nid),
      long_name := nd.long_name,
      hardware_model := nd.hardware_model,
      role := nd.role.getD "CLIENT",
      battery_level := nd.battery_level,
      voltage := nd.voltage,
      rssi := ev.rssi,
      snr := ev.snr,
      hop_count := ev.hop_count.getD 0,
      latitude := none, longitude := none, altitude := none,
      last_heard := ts, is_online := true,
      signal_quality := calculate_signal_quality ev.rssi }
  Except.ok { st with
    live_nodes := set_assoc st.live_nodes nid node,
    db := upsert_node st.db node ts }

/-- main.py handle_text_message: requires the correlation fields and the
timestamp, appends to the live ring keeping the last 100 messages, and
writes through. -/
def handle_text_message (st : LiveState) (ev : RawEvent) :
    Except (String × LiveState) LiveState := do
  let fi ← subscript st ev.from_id
  let fn ← subscript st ev.from_name
  let ti ← subscript st ev.to_id
  let tn ← subscript st ev.to_name
  let msg ← subscript st ev.message
  let ts ← subscript st ev.timestamp
  let m : TextMessageIn :=
    { from_id := fi, from_name := fn, to_id := ti, to_name := tn,
      message := msg, rssi := ev.rssi, snr := ev.snr,
      hop_count := ev.hop_count.getD 0, timestamp := ts }
  let msgs := st.live_messages ++ [m]
  let msgs := if msgs.length > 100 then msgs.drop (msgs.length - 100) else msgs
  Except.ok { st with live_messages := msgs, db := save_message st.db m ts }

/-- main.py handle_position_update: requires data["node_id"]; a position
for an unknown node is ignored (graceful no-op, not an error); for a known
node the lat/lon/altitude attributes of the live node are overwritten with
the values of this event (possibly null) BEFORE data["timestamp"] is read,
so a missing timestamp raises only after those mutations are applied to the
shared live state; on success last_heard is set and the update is written
through. -/
def handle_position_update (st : LiveState) (ev : RawEvent) :
    Except (String × LiveState) LiveState := do
  let nid ← subscript st ev.node_id
  match lookup_assoc st.live_nodes nid with
  | none => Except.ok st
  | some n => do
    let n2 := { n with latitude := ev.latitude, longitude := ev.longitude,
                       altitude := ev.altitude }
    let st2 := { st with live_nodes := set_assoc st.live_nodes nid n2 }
    let ts ← subscript st2 ev.timestamp
    let n3 := { n2 with last_heard := ts }
    Except.ok { st2 with
      live_nodes := set_assoc st2.live_nodes nid n3,
      db := upsert_node st2.db n3 ts }

/-- main.py handle_telemetry: for a known node, the battery/voltage
attributes of the live node are overwritten BEFORE data["timestamp"] is
read (a missing timestamp raises after those mutations are applied), then
hop count, RSSI (recomputing the signal quality with the unguarded step
function) and SNR are merged when present and the node is written through;
for an unknown node a minimal placeholder is built (all field reads before
any mutation) whose hop count defaults to the 999 unknown sentinel. -/
def handle_telemetry (st : LiveState) (ev : RawEvent) :
    Except (String × LiveState) LiveState := do
  let nid ← subscript st ev.node_id
  match lookup_assoc st.live_nodes nid with
  | some n => do
    let n1 := { n with battery_level := ev.device_battery,
                       voltage := ev.device_voltage }
    let st1 := { st with live_nodes := set_assoc st.live_nodes nid n1 }
    let ts ← subscript st1 ev.timestamp
    let n2 := { n1 with last_heard := ts }
    let n3 := match ev.hop_count with
      | some hc => { n2 with hop_count := hc }
      | none => n2
    let n4 := match ev.rssi with
      | some r =>
        { n3 with rssi := some r, signal_quality := some (rssi_step_quality r) }
      | none => n3
    let n5 := match ev.snr with
      | some s => { n4 with snr := some s }
      | none => n4
    Except.ok { st1 with
      live_nodes := set_assoc st1.live_nodes nid n5,
      db := upsert_node st1.db n5 ts }
  | none => do
    let ts ← subscript st ev.timestamp
    let node : NodeRow :=
      { id := nid, short_name := "Node-" ++ nid.take 8, long_name := none,
        hardware_model := none, role := "CLIENT",
        battery_level := ev.device_battery, voltage := ev.device_voltage,
        rssi := ev.rssi, snr := ev.snr, hop_count := ev.hop_count.getD 999,
        latitude := none, longitude := none, altitude := none,
        last_heard := ts, is_online := true,
        signal_quality := calculate_signal_quality ev.rssi }
    Except.ok { st with
      live_nodes := set_assoc st.live_nodes nid node,
      db := upsert_node st.db node ts }

/-- main.py handle_network_link: requires from_id, to_id and the timestamp;
is_direct defaults to true when absent; the link is stored in the live dict
under the "from-to" key and written through. -/
def handle_network_link (st : LiveState) (ev : RawEvent) :
    Except (String × LiveState) LiveState := do
  let fi ← subscript st ev.from_id
  let ti ← subscript st ev.to_id
  let ts ← subscript st ev.timestamp
  let link : NetworkLinkIn :=
    { from_id := fi, to_id := ti, rssi := ev.rssi, snr := ev.snr,
      success_rate := 1, last_seen := ts, is_direct := ev.is_direct.getD true }
  Except.ok { st with
    network_links := set_assoc st.network_links (fi ++ "-" ++ ti) link,
    db := update_network_link st.db link ts }

/-- main.py handle_mesh_packet: persisted for forensic purposes only, never
mutates the live view. -/
def handle_mesh_packet (st : LiveState) (ev : RawEvent) :
    Except (String × LiveState) LiveState := do
  let fi ← subscript st ev.from_id
  let ti ← subscript st ev.to_id
  let pt ← subscript st ev.packet_type
  let ts ← subscript st ev.timestamp
  let p : MeshPacketIn :=
    { from_id := fi, to_id := ti, packet_type := pt, payload := ev.payload,
      rssi := ev.rssi, snr := ev.snr, hop_count := ev.hop_count.getD 0,
      channel := ev.channel.getD 0, timestamp := ts }
  Except.ok { st with db := save_packet st.db p ts }

/-- The body of the try block of main.py process_meshtastic_data:
data["type"] is read (a missing type raises), the matching handler runs
(an unrecognized type matches no handler and only broadcasts), and one
notification is emitted for the event. -/
def handle_event (st : LiveState) (ev : RawEvent) :
    Except (String × LiveState) LiveState :=
  subscript st ev.typ >>= fun t =>
    (if t = "node_info" then handle_node_info st ev
     else if t = "text_message" then handle_text_message st ev
     else if t = "position_update" then handle_position_update st ev
     else if t = "telemetry" then handle_telemetry st ev
     else if t = "network_link" then handle_network_link st ev
     else if t = "mesh_packet" then handle_mesh_packet st ev
     else Except.ok st) >>= fun st2 =>
      Except.ok { st2 with notifications := st2.notifications ++ [t] }

/-- main.py process_meshtastic_data: the whole body runs inside
try/except Exception, so the function always returns a next state; an
exception is logged and swallowed, and the live state as mutated up to the
raise (carried in the error) is what remains. -/
def process_meshtastic_data (st : LiveState) (ev : RawEvent) : LiveState :=
  match handle_event st ev with
  | Except.ok st2 => st2
  | Except.error (_, st2) => st2

/-- A stream of events fed through process_meshtastic_data in order. -/
def process_stream (st : LiveState) (evs : List RawEvent) : LiveState :=
  evs.foldl process_meshtastic_data st

/-- C6 concrete live node with a known position (latitude 1, longitude 2). -/
def c6_node_a : NodeRow :=
  { id := "A", short_name := "A1", long_name := none, hardware_model := none,
    role := "CLIENT", battery_level := none, voltage := none, rssi := none,
    snr := none, hop_count := 0, latitude := some 1, longitude := some 2,
    altitude := none, last_heard := 10, is_online := true,
    signal_quality := none }

/-- C6 concrete live state: node "A" is known with a position. -/
def c6_ready_state : LiveState :=
  { live_nodes := [("A", c6_node_a)], live_messages := [], network_links := [],
    db := empty_db, notifications := [] }

/-- C6 concrete malformed event: a position_update for the known node "A"
that is missing its timestamp (and carries no coordinates). -/
def c6_partial_bad_event : RawEvent :=
  { typ := some "position_update", node_id := some "A" }

/-- The state left behind by c6_partial_bad_event: the handler overwrote
the live node position with the (absent) coordinates of the event before
the KeyError on the missing timestamp. -/
def c6_partial_state : LiveState :=
  { c6_ready_state with
    live_nodes := [("A", { c6_node_a with latitude := none, longitude := none, altitude := none })] }

/-- main.py WebSocket client as seen by broadcast_to_clients: an identity
plus whether its send_text raises. -/
structure Client where
  cid : Nat
  failsSend : Bool
deriving DecidableEq, Repr

/-- main.py broadcast_to_clients: returns early when there are no clients;
otherwise sends to every client in order, collecting the clients whose send
raised, and finally removes each of those from the client list.  Result:
the (client id, message) deliveries that succeeded, and the client list
afterwards. -/
def broadcast_to_clients (clients : List Client) (msg : String) :
    List (Nat × String) × List Client :=
  if clients.isEmpty then ([], clients)
  else
    let delivered := (clients.filter (fun c => !c.failsSend)).map (fun c => (c.cid, msg))
    let disconnected := clients.filter (fun c => c.failsSend)
    (delivered, disconnected.foldl List.erase clients)

/-- C7 concrete subscriber set: three clients, the second of which throws
on send. -/
def c7_clients : List Client :=
  [{ cid := 1, failsSend := false }, { cid := 2, failsSend := true },
   { cid := 3, failsSend := false }]

/-- C3 counterexample input: an RSSI of 0 is a present integer value with
0 > -75, yet the code treats it as absent. -/
def c3_rssi_zero : Option Int := some 0

/-- C4 counterexample input: hopStart = 3, hopLimit = 3 gives a known hop
count of 0 (packet heard directly). -/
def c4_zero_hop : Option Int := hop_count_of 3 3

end MeshViewer2

namespace MeshViewer2

/-- C3 (counterexample): the claim requires every integer RSSI to follow the
section 4.1 step function, so RSSI = 0 (which satisfies 0 > -75) must map to
EXCELLENT; the code maps a present RSSI of 0 to an unset quality because the
Python guard `if not rssi` also fires on 0. -/
theorem calculate_signal_quality_zero_counterexample :
    c3_rssi_zero = some 0 ∧
    (0 : Int) > -75 ∧
    calculate_signal_quality c3_rssi_zero = none ∧
    (none : Option SignalQuality) ≠ some SignalQuality.EXCELLENT := by
  refine ⟨rfl, by decide, by decide, by decide⟩

/-- C3 (amended): absent RSSI gives an unset quality; every present nonzero
RSSI follows the section 4.1 step function exactly, including at the
boundaries; a present RSSI of 0 is treated like an absent one (Python
falsiness) and gives an unset quality rather than a bucket. -/
theorem calculate_signal_quality_step (r : Int) (h : r ≠ 0) :
    calculate_signal_quality (some r) = some (rssi_step_quality r) ∧
    calculate_signal_quality none = none ∧
    calculate_signal_quality (some 0) = none := by
  refine ⟨?_, rfl, by decide⟩
  simp only [calculate_signal_quality, pyFalsyInt, rssi_step_quality]
  have hb : (r == 0) = false := by
    simpa using h
  simp [hb]
  split_ifs <;> rfl

/-- Witness for calculate_signal_quality_step at r = -76 (a boundary value:
-76 is not greater than -75, so it falls in the GOOD bucket). -/
theorem calculate_signal_quality_step_witness :
    (-76 : Int) ≠ 0 ∧
    (calculate_signal_quality (some (-76)) = some (rssi_step_quality (-76)) ∧
     calculate_signal_quality none = none ∧
     calculate_signal_quality (some 0) = none) :=
  ⟨by decide, calculate_signal_quality_step (-76) (by decide)⟩

/-- C4 (counterexample): a packet with hopStart = 3 and hopLimit = 3 has a
known hop count of 0, which is at most 1, so the claim requires the link to
be marked direct; the code marks it not direct because it tests
`hop_count == 1` rather than `hop_count ≤ 1`. -/
theorem link_is_direct_zero_hop_counterexample :
    c4_zero_hop = some 0 ∧
    (0 : Int) ≤ 1 ∧
    link_is_direct c4_zero_hop = false := by
  refine ⟨by decide, by decide, by decide⟩

/-- C4 (amended): hop count is never fabricated as 0 when hop-start
information is unavailable (non-positive hopStart yields an unknown hop
count, represented as none); the directness flag is true iff the hop count
is known and exactly 1; an unknown hop count is never marked direct. -/
theorem hop_count_and_directness (hs hl : Int) :
    (hs ≤ 0 → hop_count_of hs hl = none) ∧
    (link_is_direct (hop_count_of hs hl) = true ↔ hop_count_of hs hl = some 1) ∧
    link_is_direct none = false := by
  refine ⟨?_, ?_, by decide⟩
  · intro h
    simp [hop_count_of, not_lt.mpr h]
  · simp [link_is_direct]

/-- Witness for hop_count_and_directness at hopStart = 0, hopLimit = 5:
no hop information yields an unknown (none) hop count, which is not direct. -/
theorem hop_count_and_directness_witness :
    (hop_count_of 0 5 = none) ∧
    (link_is_direct (hop_count_of 0 5) = true ↔ hop_count_of 0 5 = some 1) ∧
    link_is_direct none = false :=
  ⟨(hop_count_and_directness 0 5).1 (by decide),
   (hop_count_and_directness 0 5).2.1,
   (hop_count_and_directness 0 5).2.2⟩

/-- C8: a protocol-reserved broadcast destination (missing, empty, "^all",
or the all-nodes marker "4294967295") always yields the canonical
"broadcast" link destination, for every local node id, because on_receive
normalizes the destination before update_network_link runs; any other
destination string passes through unchanged, so "broadcast" never collides
with a real node id. -/
theorem broadcast_dest_normalization (toId : Option String) (localId : Option String) :
    ((toId = none ∨ toId = some "" ∨ toId = some "^all" ∨ toId = some "4294967295") →
      on_receive_link_dest toId localId = "broadcast") ∧
    (∀ s, toId = some s → s ≠ "" → s ≠ "^all" → s ≠ "4294967295" →
      on_receive_link_dest toId localId = s) := by
  constructor
  · rintro (rfl | rfl | rfl | rfl) <;>
      simp [on_receive_link_dest, resolve_to_id, normalize_to_id, link_to_id]
  · rintro s rfl h1 h2 h3
    simp [on_receive_link_dest, resolve_to_id, normalize_to_id, link_to_id, h1, h2, h3]

/-- Witness for broadcast_dest_normalization: the marker "^all" maps to
"broadcast" even when a local node id is known, and a real destination
"12345" is left unchanged. -/
theorem broadcast_dest_normalization_witness :
    on_receive_link_dest (some "^all") (some "999") = "broadcast" ∧
    on_receive_link_dest (some "12345") (some "999") = "12345" :=
  ⟨(broadcast_dest_normalization (some "^all") (some "999")).1 (Or.inr (Or.inr (Or.inl rfl))),
   (broadcast_dest_normalization (some "12345") (some "999")).2 "12345" rfl
     (by decide) (by decide) (by decide)⟩

/-- Mapping an update over a list only at positions matching the search
predicate commutes with find?, provided the update preserves the
predicate. -/
theorem find?_map_ite_update {α : Type} (p : α → Bool) (upd : α → α)
    (hupd : ∀ x, p x = true → p (upd x) = true) :
    ∀ (l : List α) (x : α), l.find? p = some x →
      (l.map (fun y => if p y then upd y else y)).find? p = some (upd x) := by
  intro l
  induction l with
  | nil => intro x hx; simp at hx
  | cons a t ih =>
    intro x hx
    by_cases hp : p a = true
    · rw [List.find?_cons_of_pos _ hp] at hx
      injection hx with hx
      subst hx
      simp only [List.map_cons, if_pos hp]
      exact List.find?_cons_of_pos _ (hupd a hp)
    · have hp' : p a = false := by simpa using hp
      rw [List.find?_cons_of_neg _ (by simp [hp'])] at hx
      simp only [List.map_cons, hp', Bool.false_eq_true, if_false]
      rw [List.find?_cons_of_neg _ (by simp [hp'])]
      exact ih x hx

/-- The existing-row branch of _update_node_link: packet_count goes up by
exactly 1 and the three means follow the incremental identity. -/
theorem update_node_link_existing (links : List NodeLinkRow) (fn tn rssi : Int)
    (snr : Rat) (hop : Int) (sid : Nat) (now : Int) (l : NodeLinkRow)
    (h : links.find? (link_key_match sid fn tn) = some l) :
    (update_node_link links fn tn rssi snr hop sid now).find? (link_key_match sid fn tn) =
      some { l with
        packet_count := l.packet_count + 1,
        avg_rssi := (l.avg_rssi * (l.packet_count : Rat) + (rssi : Rat)) /
          ((l.packet_count : Rat) + 1),
        avg_snr := (l.avg_snr * (l.packet_count : Rat) + snr) /
          ((l.packet_count : Rat) + 1),
        avg_hop_count := (l.avg_hop_count * (l.packet_count : Rat) + (hop : Rat)) /
          ((l.packet_count : Rat) + 1),
        success_rate := 100,
        is_direct := decide (hop ≤ 1),
        last_seen := now, last_updated := now } := by
  unfold update_node_link
  rw [h]
  have key := find?_map_ite_update (link_key_match sid fn tn)
    (fun y => { y with
      packet_count := l.packet_count + 1,
      avg_rssi := (l.avg_rssi * (l.packet_count : Rat) + (rssi : Rat)) /
        ((l.packet_count + 1 : Nat) : Rat),
      avg_snr := (l.avg_snr * (l.packet_count : Rat) + snr) /
        ((l.packet_count + 1 : Nat) : Rat),
      avg_hop_count := (l.avg_hop_count * (l.packet_count : Rat) + (hop : Rat)) /
        ((l.packet_count + 1 : Nat) : Rat),
      success_rate := 100,
      is_direct := decide (hop ≤ 1),
      last_seen := now, last_updated := now })
    (fun x hx => hx) links l h
  rw [key]
  congr 1
  push_cast
  rfl

/-- C5: when a row for (session, from, to) already exists, _update_node_link
increments its packet_count by exactly 1 and recomputes the three rolling
means with the incremental identity new_mean = (old_mean * n + value) / (n + 1);
in particular two updates of a fresh link with rssi -60 then rssi -80 leave
avg_rssi = -70 and packet_count = 2. -/
theorem update_node_link_rolling_mean :
    (∀ (links : List NodeLinkRow) (fn tn rssi : Int) (snr : Rat) (hop : Int)
       (sid : Nat) (now : Int) (l : NodeLinkRow),
       links.find? (link_key_match sid fn tn) = some l →
       (update_node_link links fn tn rssi snr hop sid now).find? (link_key_match sid fn tn) =
         some { l with
           packet_count := l.packet_count + 1,
           avg_rssi := (l.avg_rssi * (l.packet_count : Rat) + (rssi : Rat)) /
             ((l.packet_count : Rat) + 1),
           avg_snr := (l.avg_snr * (l.packet_count : Rat) + snr) /
             ((l.packet_count : Rat) + 1),
           avg_hop_count := (l.avg_hop_count * (l.packet_count : Rat) + (hop : Rat)) /
             ((l.packet_count : Rat) + 1),
           success_rate := 100,
           is_direct := decide (hop ≤ 1),
           last_seen := now, last_updated := now }) ∧
    ((update_node_link (update_node_link [] 1 2 (-60) 0 0 7 100) 1 2 (-80) 0 0 7 200).find?
        (link_key_match 7 1 2)).map (fun l => (l.packet_count, l.avg_rssi)) =
      some (2, (-70 : Rat)) := by
  constructor
  · exact update_node_link_existing
  · have h1 : update_node_link [] 1 2 (-60) 0 0 7 100 = [c5_first_row] := by
      unfold update_node_link
      rw [List.find?_nil]
      norm_num [c5_first_row]
    rw [h1]
    have h2 : List.find? (link_key_match 7 1 2) [c5_first_row] = some c5_first_row :=
      List.find?_cons_of_pos _ (by decide)
    rw [update_node_link_existing [c5_first_row] 1 2 (-80) 0 0 7 200 c5_first_row h2]
    simp only [Option.map_some, c5_first_row]
    norm_num

/-- Witness for the universal part of update_node_link_rolling_mean,
applied to the state after the first update of the C5 scenario. -/
theorem update_node_link_rolling_mean_witness :
    [c5_first_row].find? (link_key_match 7 1 2) = some c5_first_row ∧
    (update_node_link [c5_first_row] 1 2 (-80) 0 0 7 200).find? (link_key_match 7 1 2) =
      some { c5_first_row with
        packet_count := c5_first_row.packet_count + 1,
        avg_rssi := (c5_first_row.avg_rssi * (c5_first_row.packet_count : Rat) +
            ((-80 : Int) : Rat)) / ((c5_first_row.packet_count : Rat) + 1),
        avg_snr := (c5_first_row.avg_snr * (c5_first_row.packet_count : Rat) + 0) /
          ((c5_first_row.packet_count : Rat) + 1),
        avg_hop_count := (c5_first_row.avg_hop_count * (c5_first_row.packet_count : Rat) +
            ((0 : Int) : Rat)) / ((c5_first_row.packet_count : Rat) + 1),
        success_rate := 100,
        is_direct := decide ((0 : Int) ≤ 1),
        last_seen := 200, last_updated := 200 } :=
  ⟨List.find?_cons_of_pos _ (by decide),
   update_node_link_rolling_mean.1 [c5_first_row] 1 2 (-80) 0 0 7 200 c5_first_row
     (List.find?_cons_of_pos _ (by decide))⟩

/-- find? after removing every element matching the predicate and appending
a matching element returns the appended element. -/
theorem find?_not_filter_append {α : Type} (p : α → Bool) (l : List α) (x : α)
    (hx : p x = true) :
    ((l.filter (fun a => !(p a))) ++ [x]).find? p = some x := by
  induction l with
  | nil => simpa using List.find?_cons_of_pos ([] : List α) hx
  | cons a t ih =>
    by_cases hp : p a = true
    · have hfa : (a :: t).filter (fun a => !(p a)) = t.filter (fun a => !(p a)) := by
        simp [List.filter_cons, hp]
      rw [hfa]
      exact ih
    · have hp' : p a = false := by simpa using hp
      have hfa : (a :: t).filter (fun a => !(p a)) = a :: t.filter (fun a => !(p a)) := by
        simp [List.filter_cons, hp']
      rw [hfa, List.cons_append, List.find?_cons_of_neg _ (by simp [hp'])]
      exact ih

/-- After upsert_node, the stored row for the node id is exactly the
upserted node (with recomputed signal quality), under the session tracked
after ensure_session. -/
theorem lookup_after_upsert (st : DBState) (n : NodeRow) (t : Int) :
    lookup_node (upsert_node st n t) n.id =
      some { session_id := current_sid (ensure_session st t),
             node := { n with signal_quality := calculate_signal_quality n.rssi } } := by
  simp only [lookup_node, upsert_node]
  exact find?_not_filter_append (fun r : NodeStored => r.node.id == n.id) _ _ (by simp)

/-- C1 (counterexample): upserting node "A" first with long_name "Alpha"
(battery null) and then with battery 80 (long_name null) leaves the stored
long_name null: the INSERT OR REPLACE of upsert_node overwrites the whole
row, so a field that was non-null after the first upsert and omitted in the
second is nulled rather than kept. -/
theorem upsert_union_counterexample :
    (lookup_node (upsert_node empty_db c1_first_update 10) "A").map
        (fun r => r.node.long_name) = some (some "Alpha") ∧
    c1_second_update.long_name = none ∧
    c1_second_update.battery_level = some 80 ∧
    (lookup_node (upsert_node (upsert_node empty_db c1_first_update 10)
        c1_second_update 20) "A").map (fun r => r.node.long_name) = some none ∧
    (some (none : Option String)) ≠ some (some "Alpha") := by
  refine ⟨rfl, rfl, rfl, rfl, by decide⟩

/-- C1 (amended): upsert_node has replace semantics, not merge semantics:
after upserting the same node id twice, the stored record is exactly the
second update (with its signal quality recomputed from its own RSSI), so
any field that is null in the second update is null in the stored record
even if it was non-null after the first upsert. -/
theorem upsert_node_replace (st : DBState) (n1 n2 : NodeRow) (t1 t2 : Int)
    (_h : n1.id = n2.id) :
    (lookup_node (upsert_node (upsert_node st n1 t1) n2 t2) n2.id).map
        (fun r => r.node) =
      some { n2 with signal_quality := calculate_signal_quality n2.rssi } := by
  rw [lookup_after_upsert]
  rfl

/-- Witness for upsert_node_replace on the two concrete C1 updates. -/
theorem upsert_node_replace_witness :
    c1_first_update.id = c1_second_update.id ∧
    (lookup_node (upsert_node (upsert_node empty_db c1_first_update 10)
        c1_second_update 20) c1_second_update.id).map (fun r => r.node) =
      some { c1_second_update with
             signal_quality := calculate_signal_quality c1_second_update.rssi } :=
  ⟨rfl, upsert_node_replace empty_db c1_first_update c1_second_update 10 20 rfl⟩

/-- C2: for every database state, start_session leaves exactly one active
session, namely the newly created one (tracked as the current session id),
and every previously active session ends up deactivated with its end time
stamped. -/
theorem start_session_single_active (st : DBState) (now : Int) :
    ((start_session st now).sessions.filter (fun s => s.is_active)) =
      [{ id := st.nextSessionId, started_at := now, ended_at := none,
         is_active := true, node_count := 0, message_count := 0 }] ∧
    (start_session st now).currentSessionId = some st.nextSessionId ∧
    ∀ s ∈ st.sessions, s.is_active = true →
      { s with is_active := false, ended_at := some now } ∈
        (start_session st now).sessions := by
  refine ⟨?_, rfl, ?_⟩
  · simp only [start_session, List.filter_append]
    have h1 : (st.sessions.map (fun s =>
        if s.is_active then { s with is_active := false, ended_at := some now }
        else s)).filter (fun s => s.is_active) = [] := by
      rw [List.filter_eq_nil_iff]
      intro a ha
      rcases List.mem_map.mp ha with ⟨b, _, rfl⟩
      by_cases h : b.is_active <;> simp [h]
    rw [h1]
    rfl
  · intro s hs hact
    simp only [start_session, List.mem_append]
    left
    exact List.mem_map.mpr ⟨s, hs, by simp [hact]⟩

/-- Witness for start_session_single_active: a state with one active
session (id 1); after start_session at time 50 the old session is stored
deactivated with end time 50 and the only active session is the new id 2. -/
theorem start_session_single_active_witness :
    (({ id := 1, started_at := 0, ended_at := none, is_active := true,
        node_count := 0, message_count := 0 } : SessionRow) ∈
      ({ empty_db with
          sessions := [{ id := 1, started_at := 0, ended_at := none,
                         is_active := true, node_count := 0, message_count := 0 }],
          nextSessionId := 2, currentSessionId := some 1 } : DBState).sessions) ∧
    ({ id := 1, started_at := 0, ended_at := some 50, is_active := false,
       node_count := 0, message_count := 0 } : SessionRow) ∈
      (start_session
        { empty_db with
          sessions := [{ id := 1, started_at := 0, ended_at := none,
                         is_active := true, node_count := 0, message_count := 0 }],
          nextSessionId := 2, currentSessionId := some 1 } 50).sessions :=
  ⟨by decide,
   (start_session_single_active
      { empty_db with
        sessions := [{ id := 1, started_at := 0, ended_at := none,
                       is_active := true, node_count := 0, message_count := 0 }],
        nextSessionId := 2, currentSessionId := some 1 } 50).2.2
      { id := 1, started_at := 0, ended_at := none, is_active := true,
        node_count := 0, message_count := 0 } (by decide) rfl⟩

/-- C10: when no session is tracked, the three query operations return the
empty list and leave the state untouched (in particular they start no
session), while each of the four write operations starts a session (the
tracked id becomes the fresh session id, and for upsert_node the fresh
active session row is in the sessions table). -/
theorem no_session_reads_empty_writes_start (st : DBState) (now since : Int)
    (limit : Nat) (node : NodeRow) (p : MeshPacketIn) (m : TextMessageIn)
    (link : NetworkLinkIn) (h : st.currentSessionId = none) :
    get_active_nodes st now since = ([], st) ∧
    get_network_topology st = ([], st) ∧
    get_recent_messages st limit = ([], st) ∧
    (upsert_node st node now).currentSessionId = some st.nextSessionId ∧
    (save_packet st p now).currentSessionId = some st.nextSessionId ∧
    (save_message st m now).currentSessionId = some st.nextSessionId ∧
    (update_network_link st link now).currentSessionId = some st.nextSessionId ∧
    { id := st.nextSessionId, started_at := now, ended_at := none,
      is_active := true, node_count := 0, message_count := 0 } ∈
      (upsert_node st node now).sessions := by
  have hf : pyFalsyNat st.currentSessionId = true := by rw [h]; rfl
  refine ⟨?_, ?_, ?_, ?_, ?_, ?_, ?_, ?_⟩
  · simp [get_active_nodes, hf]
  · simp [get_network_topology, hf]
  · simp [get_recent_messages, hf]
  · simp [upsert_node, ensure_session, hf, start_session]
  · simp [save_packet, ensure_session, hf, start_session]
  · simp [save_message, ensure_session, hf, start_session]
  · simp [update_network_link, ensure_session, hf, start_session]
  · simp [upsert_node, ensure_session, hf, start_session]

/-- Witness for no_session_reads_empty_writes_start at the empty database
state with concrete inputs. -/
theorem no_session_reads_empty_writes_start_witness :
    empty_db.currentSessionId = none ∧
    get_active_nodes empty_db 1000 300 = ([], empty_db) ∧
    (upsert_node empty_db c1_first_update 1000).currentSessionId =
      some empty_db.nextSessionId :=
  ⟨rfl,
   (no_session_reads_empty_writes_start empty_db 1000 300 50 c1_first_update
      { from_id := "A", to_id := "B", packet_type := "UNKNOWN", payload := none,
        rssi := none, snr := none, hop_count := 0, channel := 0, timestamp := 1000 }
      { from_id := "A", from_name := "a", to_id := "B", to_name := "b",
        message := "hi", rssi := none, snr := none, hop_count := 0, timestamp := 1000 }
      { from_id := "A", to_id := "B", rssi := none, snr := none, success_rate := 1,
        last_seen := 1000, is_direct := true } rfl).1,
   (no_session_reads_empty_writes_start empty_db 1000 300 50 c1_first_update
      { from_id := "A", to_id := "B", packet_type := "UNKNOWN", payload := none,
        rssi := none, snr := none, hop_count := 0, channel := 0, timestamp := 1000 }
      { from_id := "A", from_name := "a", to_id := "B", to_name := "b",
        message := "hi", rssi := none, snr := none, hop_count := 0, timestamp := 1000 }
      { from_id := "A", to_id := "B", rssi := none, snr := none, success_rate := 1,
        last_seen := 1000, is_direct := true } rfl).2.2.2.1⟩

/-- Binding an error propagates it. -/
theorem error_bind {ε α β : Type} (e : ε) (k : α → Except ε β) :
    (Except.error e : Except ε α) >>= k = Except.error e := rfl

/-- Binding a success applies the continuation. -/
theorem ok_bind {ε α β : Type} (a : α) (k : α → Except ε β) :
    (Except.ok a : Except ε α) >>= k = k a := rfl

/-- Subscripting a present key succeeds. -/
theorem subscript_some {α : Type} (st : LiveState) (v : α) :
    subscript st (some v) = Except.ok v := rfl

/-- Subscripting a missing key raises KeyError carrying the state at the
access point. -/
theorem subscript_none {α : Type} (st : LiveState) :
    subscript st (none : Option α) = Except.error ("KeyError", st) := rfl

/-- A failure that starts at a missing subscript carries exactly the
state at the access point. -/
theorem subscript_none_bind {α β : Type} (st : LiveState)
    (k : α → Except (String × LiveState) β) {msg : String} {st' : LiveState}
    (h : (subscript st (none : Option α) >>= k) = Except.error (msg, st')) :
    st' = st := by
  rw [subscript_none, error_bind] at h
  simp only [Except.error.injEq, Prod.mk.injEq] at h
  exact h.2.symm

/-- A bind whose continuation always succeeds fails exactly when its first
stage fails. -/
theorem bind_ok_error {ε α β : Type} (e : Except ε α) (f : α → β) (x : ε)
    (h : (e >>= fun a => (Except.ok (f a) : Except ε β)) = Except.error x) :
    e = Except.error x := by
  cases e with
  | error e2 =>
    rw [error_bind] at h
    simp only [Except.error.injEq] at h
    rw [h]
  | ok a => rw [ok_bind] at h; exact Except.noConfusion h

/-- handle_node_info reads every required field before mutating anything,
so its failures leave the state untouched. -/
theorem handle_node_info_error (st : LiveState) (ev : RawEvent) (msg : String)
    (st' : LiveState) (h : handle_node_info st ev = Except.error (msg, st')) :
    st' = st := by
  unfold handle_node_info at h
  cases h1 : ev.node with
  | none => rw [h1] at h; exact subscript_none_bind st _ h
  | some nd =>
    rw [h1, subscript_some, ok_bind] at h
    cases h2 : nd.id with
    | none => rw [h2] at h; exact subscript_none_bind st _ h
    | some nid =>
      rw [h2, subscript_some, ok_bind] at h
      cases h3 : ev.timestamp with
      | none => rw [h3] at h; exact subscript_none_bind st _ h
      | some ts =>
        rw [h3, subscript_some, ok_bind] at h
        exact Except.noConfusion h

/-- handle_text_message reads every required field before mutating
anything, so its failures leave the state untouched. -/
theorem handle_text_message_error (st : LiveState) (ev : RawEvent) (msg : String)
    (st' : LiveState) (h : handle_text_message st ev = Except.error (msg, st')) :
    st' = st := by
  unfold handle_text_message at h
  cases h1 : ev.from_id with
  | none => rw [h1] at h; exact subscript_none_bind st _ h
  | some fi =>
    rw [h1, subscript_some, ok_bind] at h
    cases h2 : ev.from_name with
    | none => rw [h2] at h; exact subscript_none_bind st _ h
    | some fn =>
      rw [h2, subscript_some, ok_bind] at h
      cases h3 : ev.to_id with
      | none => rw [h3] at h; exact subscript_none_bind st _ h
      | some ti =>
        rw [h3, subscript_some, ok_bind] at h
        cases h4 : ev.to_name with
        | none => rw [h4] at h; exact subscript_none_bind st _ h
        | some tn =>
          rw [h4, subscript_some, ok_bind] at h
          cases h5 : ev.message with
          | none => rw [h5] at h; exact subscript_none_bind st _ h
          | some m =>
            rw [h5, subscript_some, ok_bind] at h
            cases h6 : ev.timestamp with
            | none => rw [h6] at h; exact subscript_none_bind st _ h
            | some ts =>
              rw [h6, subscript_some, ok_bind] at h
              exact Except.noConfusion h

/-- handle_network_link reads every required field before mutating
anything, so its failures leave the state untouched. -/
theorem handle_network_link_error (st : LiveState) (ev : RawEvent) (msg : String)
    (st' : LiveState) (h : handle_network_link st ev = Except.error (msg, st')) :
    st' = st := by
  unfold handle_network_link at h
  cases h1 : ev.from_id with
  | none => rw [h1] at h; exact subscript_none_bind st _ h
  | some fi =>
    rw [h1, subscript_some, ok_bind] at h
    cases h2 : ev.to_id with
    | none => rw [h2] at h; exact subscript_none_bind st _ h
    | some ti =>
      rw [h2, subscript_some, ok_bind] at h
      cases h3 : ev.timestamp with
      | none => rw [h3] at h; exact subscript_none_bind st _ h
      | some ts =>
        rw [h3, subscript_some, ok_bind] at h
        exact Except.noConfusion h

/-- handle_mesh_packet reads every required field before mutating anything,
so its failures leave the state untouched. -/
theorem handle_mesh_packet_error (st : LiveState) (ev : RawEvent) (msg : String)
    (st' : LiveState) (h : handle_mesh_packet st ev = Except.error (msg, st')) :
    st' = st := by
  unfold handle_mesh_packet at h
  cases h1 : ev.from_id with
  | none => rw [h1] at h; exact subscript_none_bind st _ h
  | some fi =>
    rw [h1, subscript_some, ok_bind] at h
    cases h2 : ev.to_id with
    | none => rw [h2] at h; exact subscript_none_bind st _ h
    | some ti =>
      rw [h2, subscript_some, ok_bind] at h
      cases h3 : ev.packet_type with
      | none => rw [h3] at h; exact subscript_none_bind st _ h
      | some pt =>
        rw [h3, subscript_some, ok_bind] at h
        cases h4 : ev.timestamp with
        | none => rw [h4] at h; exact subscript_none_bind st _ h
        | some ts =>
          rw [h4, subscript_some, ok_bind] at h
          exact Except.noConfusion h

/-- A failure of handle_position_update leaves the database, the message
ring, the links and the notifications untouched: the only possible damage
is the lat/lon/altitude overwrite of the live node applied before the
timestamp read. -/
theorem handle_position_update_error (st : LiveState) (ev : RawEvent)
    (msg : String) (st' : LiveState)
    (h : handle_position_update st ev = Except.error (msg, st')) :
    st'.db = st.db ∧ st'.live_messages = st.live_messages ∧
    st'.network_links = st.network_links ∧
    st'.notifications = st.notifications := by
  unfold handle_position_update at h
  cases h1 : ev.node_id with
  | none =>
    rw [h1] at h
    rw [subscript_none_bind st _ h]
    exact ⟨rfl, rfl, rfl, rfl⟩
  | some nid =>
    rw [h1, subscript_some, ok_bind] at h
    cases h2 : lookup_assoc st.live_nodes nid with
    | none => rw [h2] at h; exact Except.noConfusion h
    | some n =>
      rw [h2] at h
      cases h3 : ev.timestamp with
      | none =>
        rw [h3] at h
        rw [subscript_none_bind _ _ h]
        exact ⟨rfl, rfl, rfl, rfl⟩
      | some ts =>
        rw [h3] at h
        exact Except.noConfusion h

/-- A failure of handle_telemetry leaves the database, the message ring,
the links and the notifications untouched: the only possible damage is the
battery/voltage overwrite of the live node applied before the timestamp
read in the known-node branch. -/
theorem handle_telemetry_error (st : LiveState) (ev : RawEvent)
    (msg : String) (st' : LiveState)
    (h : handle_telemetry st ev = Except.error (msg, st')) :
    st'.db = st.db ∧ st'.live_messages = st.live_messages ∧
    st'.network_links = st.network_links ∧
    st'.notifications = st.notifications := by
  unfold handle_telemetry at h
  cases h1 : ev.node_id with
  | none =>
    rw [h1] at h
    rw [subscript_none_bind st _ h]
    exact ⟨rfl, rfl, rfl, rfl⟩
  | some nid =>
    rw [h1, subscript_some, ok_bind] at h
    cases h2 : lookup_assoc st.live_nodes nid with
    | none =>
      rw [h2] at h
      cases h3 : ev.timestamp with
      | none =>
        rw [h3] at h
        rw [subscript_none_bind st _ h]
        exact ⟨rfl, rfl, rfl, rfl⟩
      | some ts =>
        rw [h3] at h
        exact Except.noConfusion h
    | some n =>
      rw [h2] at h
      cases h3 : ev.timestamp with
      | none =>
        rw [h3] at h
        rw [subscript_none_bind _ _ h]
        exact ⟨rfl, rfl, rfl, rfl⟩
      | some ts =>
        rw [h3] at h
        exact Except.noConfusion h

/-- Any failure of handle_event leaves database, message ring, links and
notifications untouched, and is an exact no-op unless the event is a
position_update or telemetry event (whose known-node branches mutate the
live node before the timestamp read). -/
theorem handle_event_error (st : LiveState) (ev : RawEvent) (msg : String)
    (st' : LiveState) (h : handle_event st ev = Except.error (msg, st')) :
    st'.db = st.db ∧ st'.live_messages = st.live_messages ∧
    st'.network_links = st.network_links ∧
    st'.notifications = st.notifications ∧
    ((ev.typ ≠ some "position_update" ∧ ev.typ ≠ some "telemetry") →
      st' = st) := by
  unfold handle_event at h
  cases hty : ev.typ with
  | none =>
    rw [hty] at h
    have hst := subscript_none_bind st _ h
    rw [hst]
    exact ⟨rfl, rfl, rfl, rfl, fun _ => rfl⟩
  | some t =>
    rw [hty, subscript_some, ok_bind] at h
    have hinner := bind_ok_error _ _ _ h
    by_cases t1 : t = "node_info"
    · rw [if_pos t1] at hinner
      rw [handle_node_info_error st ev msg st' hinner]
      exact ⟨rfl, rfl, rfl, rfl, fun _ => rfl⟩
    · rw [if_neg t1] at hinner
      by_cases t2 : t = "text_message"
      · rw [if_pos t2] at hinner
        rw [handle_text_message_error st ev msg st' hinner]
        exact ⟨rfl, rfl, rfl, rfl, fun _ => rfl⟩
      · rw [if_neg t2] at hinner
        by_cases t3 : t = "position_update"
        · rw [if_pos t3] at hinner
          have hf := handle_position_update_error st ev msg st' hinner
          refine ⟨hf.1, hf.2.1, hf.2.2.1, hf.2.2.2, ?_⟩
          intro hne
          exact absurd (by rw [t3]) hne.1
        · rw [if_neg t3] at hinner
          by_cases t4 : t = "telemetry"
          · rw [if_pos t4] at hinner
            have hf := handle_telemetry_error st ev msg st' hinner
            refine ⟨hf.1, hf.2.1, hf.2.2.1, hf.2.2.2, ?_⟩
            intro hne
            exact absurd (by rw [t4]) hne.2
          · rw [if_neg t4] at hinner
            by_cases t5 : t = "network_link"
            · rw [if_pos t5] at hinner
              rw [handle_network_link_error st ev msg st' hinner]
              exact ⟨rfl, rfl, rfl, rfl, fun _ => rfl⟩
            · rw [if_neg t5] at hinner
              by_cases t6 : t = "mesh_packet"
              · rw [if_pos t6] at hinner
                rw [handle_mesh_packet_error st ev msg st' hinner]
                exact ⟨rfl, rfl, rfl, rfl, fun _ => rfl⟩
              · rw [if_neg t6] at hinner
                exact Except.noConfusion hinner

/-- C6 (counterexample): a position_update for the known node "A" that is
missing its timestamp is NOT a no-op: main.py overwrites the live node
lat/lon/altitude before reading data["timestamp"], so the caught KeyError
leaves the node position clobbered to null, and the stream containing the
failing event ends in a different state than the stream without it. -/
theorem reconcile_noop_counterexample :
    process_meshtastic_data c6_ready_state c6_partial_bad_event ≠ c6_ready_state ∧
    (lookup_assoc c6_ready_state.live_nodes "A").map (fun n => n.latitude) =
      some (some 1) ∧
    (lookup_assoc (process_meshtastic_data c6_ready_state
        c6_partial_bad_event).live_nodes "A").map (fun n => n.latitude) =
      some none ∧
    process_stream c6_ready_state [c6_partial_bad_event] ≠
      process_stream c6_ready_state [] := by
  refine ⟨by decide, by decide, by decide, by decide⟩

/-- C6 (amended): process_meshtastic_data never raises past its boundary
(every event yields a next state, carried even out of a failure) and the
stream always continues with the subsequent events from that state; an
internal failure produces no durable write, no message-ring change, no
link change and no notification for that event, and is an exact no-op for
every event kind except position_update and telemetry, whose known-node
branches mutate the live node lat/lon/altitude (resp. battery/voltage)
before the timestamp read — so the worst outcome is the loss of the event
plus that partial live-node mutation, not a strict no-op. -/
theorem reconcile_error_containment (st : LiveState) (ev : RawEvent)
    (msg : String) (st' : LiveState)
    (h : handle_event st ev = Except.error (msg, st')) :
    process_meshtastic_data st ev = st' ∧
    st'.db = st.db ∧ st'.live_messages = st.live_messages ∧
    st'.network_links = st.network_links ∧
    st'.notifications = st.notifications ∧
    ((ev.typ ≠ some "position_update" ∧ ev.typ ≠ some "telemetry") →
      st' = st) ∧
    (∀ (s0 : LiveState) (pre post : List RawEvent) (e : RawEvent),
      process_stream s0 (pre ++ e :: post) =
        process_stream (process_meshtastic_data (process_stream s0 pre) e) post) := by
  have hframe := handle_event_error st ev msg st' h
  refine ⟨?_, hframe.1, hframe.2.1, hframe.2.2.1, hframe.2.2.2.1,
    hframe.2.2.2.2, ?_⟩
  · unfold process_meshtastic_data
    rw [h]
  · intro s0 pre post e
    unfold process_stream
    rw [List.foldl_append, List.foldl_cons]

/-- Witness for reconcile_error_containment at the concrete C6 input: the
malformed position_update fails with KeyError carrying the partially
mutated state, which is what the process keeps, with the database and the
notifications untouched. -/
theorem reconcile_error_containment_witness :
    handle_event c6_ready_state c6_partial_bad_event =
      Except.error ("KeyError", c6_partial_state) ∧
    process_meshtastic_data c6_ready_state c6_partial_bad_event =
      c6_partial_state ∧
    c6_partial_state.db = c6_ready_state.db ∧
    c6_partial_state.notifications = c6_ready_state.notifications :=
  ⟨rfl,
   (reconcile_error_containment c6_ready_state c6_partial_bad_event "KeyError"
      c6_partial_state rfl).1,
   (reconcile_error_containment c6_ready_state c6_partial_bad_event "KeyError"
      c6_partial_state rfl).2.1,
   (reconcile_error_containment c6_ready_state c6_partial_bad_event "KeyError"
      c6_partial_state rfl).2.2.2.2.1⟩

/-- C7: for every duplicate-free subscriber set, broadcast delivers the
message to every subscriber whose send succeeds (failures of other
subscribers do not block them), and the subscriber set afterwards is
exactly the subscribers whose send succeeded: every failing subscriber has
been removed. -/
theorem broadcast_isolates_failures (clients : List Client) (msg : String)
    (hnd : clients.Nodup) :
    (∀ c ∈ clients, c.failsSend = false →
      (c.cid, msg) ∈ (broadcast_to_clients clients msg).1) ∧
    (broadcast_to_clients clients msg).2 = clients.filter (fun c => !c.failsSend) ∧
    (∀ c ∈ clients, c.failsSend = true →
      c ∉ (broadcast_to_clients clients msg).2) := by
  have hrem : (broadcast_to_clients clients msg).2 =
      clients.filter (fun c => !c.failsSend) := by
    unfold broadcast_to_clients
    by_cases he : clients.isEmpty
    · rw [if_pos he]
      rw [List.isEmpty_iff.mp he]
      rfl
    · rw [if_neg he]
      show (clients.filter (fun c => c.failsSend)).foldl List.erase clients = _
      rw [← List.diff_eq_foldl, hnd.diff_eq_filter]
      apply List.filter_congr
      intro c hc
      by_cases hf : c.failsSend
      · simp [List.mem_filter, hc, hf]
      · simp [List.mem_filter, hf]
  refine ⟨?_, hrem, ?_⟩
  · intro c hc hf
    unfold broadcast_to_clients
    have he : clients.isEmpty = false := by
      cases clients with
      | nil => cases hc
      | cons a t => rfl
    rw [if_neg (by simp [he])]
    show (c.cid, msg) ∈ (clients.filter (fun c => !c.failsSend)).map (fun c => (c.cid, msg))
    exact List.mem_map_of_mem _ (List.mem_filter.mpr ⟨hc, by simp [hf]⟩)
  · intro c hc hf hmem
    rw [hrem] at hmem
    have := (List.mem_filter.mp hmem).2
    simp [hf] at this

/-- Witness for broadcast_isolates_failures on the three concrete C7
subscribers: clients 1 and 3 receive the message, the failing client 2 is
removed, and the remaining set is exactly clients 1 and 3. -/
theorem broadcast_isolates_failures_witness :
    c7_clients.Nodup ∧
    (1, "hello") ∈ (broadcast_to_clients c7_clients "hello").1 ∧
    (3, "hello") ∈ (broadcast_to_clients c7_clients "hello").1 ∧
    (broadcast_to_clients c7_clients "hello").2 =
      [{ cid := 1, failsSend := false }, { cid := 3, failsSend := false }] ∧
    ({ cid := 2, failsSend := true } : Client) ∉
      (broadcast_to_clients c7_clients "hello").2 :=
  ⟨by decide,
   (broadcast_isolates_failures c7_clients "hello" (by decide)).1
     { cid := 1, failsSend := false } (by decide) rfl,
   (broadcast_isolates_failures c7_clients "hello" (by decide)).1
     { cid := 3, failsSend := false } (by decide) rfl,
   ((broadcast_isolates_failures c7_clients "hello" (by decide)).2.1).trans (by decide),
   (broadcast_isolates_failures c7_clients "hello" (by decide)).2.2
     { cid := 2, failsSend := true } (by decide) rfl⟩

/-- C9: the cleanup operation deletes exactly the rows older than the
cutoff, but the count it reports is (rows older than cutoff) minus (rows
remaining after the deletion), not the number of deleted rows: on a table
with timestamps [0, 100, 100] and cutoff 50 it deletes the single old row
yet reports -1 instead of 1.  Rows at or after the cutoff therefore do
affect the reported count, contradicting the claim. -/
theorem cleanup_table_miscount :
    cleanup_table [0, 100, 100] 50 = (-1, [100, 100]) ∧
    (([0, 100, 100] : List Int).filter (fun ts => decide (ts < 50))).length = 1 ∧
    (-1 : Int) ≠ 1 := by
  refine ⟨by decide, by decide, by decide⟩

end MeshViewer2
